import Mathlib

/-!
Verification development for the searxng-mul-mcp server.

The TypeScript sources are shallowly embedded: pure computations become
Lean functions; the network side of `searchSingle` (the upstream HTTP GET)
is abstracted as an oracle `fetch : String → Except Thrown SearchResult`
supplied to the fan-out executor `SearXNGApiClient.search`; the HTTP
transport's Express handlers become functions on the session map.
JavaScript numbers are modelled as `ℚ` (the claims involve only finite
decimals), JavaScript dynamic values as the inductive `JVal`.
-/

namespace SearxngMulMcp

/-! ## Data model (src/services/searxng-api.ts) -/

/-- Embeds interface `SearchResultItem`: one backend result item.
`thumbnail?: string | null` is `Option (Option String)` (absent / null / value). -/
structure SearchResultItem where
  url : String
  title : String
  content : String
  thumbnail : Option (Option String) := none
  engine : String
  template : String
  parsed_url : List String
  img_src : Option String := none
  priority : Option String := none
  engines : List String
  positions : List Nat
  score : ℚ
  category : String
deriving DecidableEq, Repr

/-- Embeds interface `AnswerItem`. -/
structure AnswerItem where
  url : String
  template : String
  engine : String
  parsed_url : List String
  answer : String
deriving DecidableEq, Repr

/-- Embeds interface `InfoboxItem` (opaque pass-through data). -/
structure InfoboxItem where
  infobox : String
  id : String
  content : String
  img_src : Option String := none
  urls : List (String × String × Option Bool)
  attributes : List (String × String × String)
  engine : String
  url : Option String
  template : String
  parsed_url : Option (List String)
  title : String
  thumbnail : String
  priority : String
  engines : List String
  positions : Sum String ℚ
  score : ℚ
  category : String
deriving DecidableEq, Repr

/-- Embeds interface `SearchResult`: the raw backend response for one query. -/
structure SearchResult where
  query : String
  number_of_results : Nat
  results : List SearchResultItem
  answers : Option (List AnswerItem) := none
  corrections : Option (List String) := none
  infoboxes : Option (List InfoboxItem) := none
  suggestions : Option (List String) := none
  unresponsive_engines : Option (List (String × String)) := none
deriving DecidableEq, Repr

/-- One entry of `MultiSearchResult.results`: the anonymous
`{ query, success, data, error }` object built by `search`'s task wrapper
(the spec's `PerQueryOutcome`). -/
structure PerQueryOutcome where
  query : String
  success : Bool
  data : Option SearchResult
  error : Option String
deriving DecidableEq, Repr

/-- The `summary` field of `MultiSearchResult`. -/
structure SearchSummary where
  total : Nat
  successful : Nat
  failed : Nat
deriving DecidableEq, Repr

/-- Embeds interface `MultiSearchResult`. -/
structure MultiSearchResult where
  queries : List String
  results : List PerQueryOutcome
  summary : SearchSummary
deriving DecidableEq, Repr

/-- A thrown JavaScript value as observed by a `catch` clause: either an
`Error` carrying a message, or some non-`Error` value. -/
inductive Thrown where
  | jsError (message : String)
  | nonError
deriving DecidableEq, Repr

/-- Evaluates `error instanceof Error ? error.message : "Unknown error"`,
the message captured from a thrown value by the task wrapper in `search`. -/
def capturedMessage : Thrown → String
  | .jsError m => m
  | .nonError => "Unknown error"

/-- The task wrapper created in `SearXNGApiClient.search` for one query:
`searchSingle` either resolves with data (a succeeded outcome) or throws
(a failed outcome with the captured message); the oracle `fetch` stands for
`this.searchSingle(query, options)`. -/
def searchTask (fetch : String → Except Thrown SearchResult) (query : String) :
    PerQueryOutcome :=
  match fetch query with
  | .ok data => { query := query, success := true, data := some data, error := none }
  | .error e => { query := query, success := false, data := none,
                  error := some (capturedMessage e) }

/-- Embeds `SearXNGApiClient.search`. Returns the call's result —
`Except.error` models the thrown `Error` on an empty query list — paired
with the list of queries for which an upstream call (`searchSingle`) was
issued. `Promise.all` keeps input index order; `searchScheduled` below
models the completion schedule explicitly. -/
def search (fetch : String → Except Thrown SearchResult) (queries : List String) :
    Except String MultiSearchResult × List String :=
  if queries.length = 0 then
    (.error "At least one search query is required", [])
  else
    let results := queries.map (searchTask fetch)
    let successful := (results.filter (fun r => r.success)).length
    let failed := (results.filter (fun r => !r.success)).length
    (.ok { queries := queries
           results := results
           summary := { total := queries.length
                        successful := successful
                        failed := failed } },
     queries)

/-- Reassembly by original index: for each input index `i` pick the settled
outcome tagged `i` from the arrival list (this is what `Promise.all` does
with its result slots, regardless of settlement order). -/
def reassemble (n : Nat) (arrived : List (Nat × PerQueryOutcome)) :
    List PerQueryOutcome :=
  (List.range n).filterMap fun i =>
    (arrived.find? (fun p => p.1 == i)).map Prod.snd

/-- Embeds `SearXNGApiClient.search` with the event-loop schedule made explicit:
`completion i` is the tick at which query `i`'s task settles; tasks are
observed in completion order and the aggregate is reassembled by original
index. Used to show the result is schedule-independent. -/
def searchScheduled (fetch : String → Except Thrown SearchResult)
    (completion : Nat → Nat) (queries : List String) :
    Except String MultiSearchResult × List String :=
  if queries.length = 0 then
    (.error "At least one search query is required", [])
  else
    let settled := (queries.map (searchTask fetch)).enum
    let arrived := List.insertionSort (fun a b => completion a.1 ≤ completion b.1) settled
    let results := reassemble queries.length arrived
    let successful := (results.filter (fun r => r.success)).length
    let failed := (results.filter (fun r => !r.success)).length
    (.ok { queries := queries
           results := results
           summary := { total := queries.length
                        successful := successful
                        failed := failed } },
     queries)

/-! ## Query-string construction (src/services/searxng-api.ts, `searchSingle`) -/

/-- The `VALID_LANGUAGE_CODES` set from src/services/searxng-api.ts. -/
def VALID_LANGUAGE_CODES : List String :=
  ["af", "ar", "be", "bg", "ca", "cs", "cy", "da", "de", "el", "en", "es", "et", "eu", "fa", "fi",
   "fr", "ga", "gd", "gl", "he", "hi", "hr", "hu", "id", "is", "it", "ja", "kn", "ko", "lt", "lv",
   "ml", "mr", "nb", "nl", "pl", "pt", "ro", "ru", "sk", "sl", "sq", "sv", "ta", "te", "th", "tr",
   "uk", "ur", "vi", "zh",
   "ar-sa", "bg-bg", "cs-cz", "da-dk", "de-at", "de-be", "de-ch", "de-de", "el-gr", "en-au",
   "en-ca", "en-gb", "en-ie", "en-in", "en-nz", "en-ph", "en-pk", "en-sg", "en-us", "en-za",
   "es-ar", "es-cl", "es-co", "es-es", "es-mx", "es-pe", "et-ee", "fi-fi", "fr-be", "fr-ca",
   "fr-ch", "fr-fr", "hu-hu", "id-id", "it-ch", "it-it", "ja-jp", "ko-kr", "nb-no", "nl-be",
   "nl-nl", "pl-pl", "pt-br", "pt-pt", "ro-ro", "ru-ru", "sv-se", "th-th", "tr-tr", "vi-vn",
   "zh-cn", "zh-hk", "zh-tw"]

/-- Models `String.prototype.trim()`: strips leading and trailing whitespace
(list-based so the kernel can evaluate it; agrees with the runtime's trim on
the ASCII whitespace the claims use). -/
def strTrim (s : String) : String :=
  ⟨((s.data.dropWhile Char.isWhitespace).reverse.dropWhile Char.isWhitespace).reverse⟩

/-- Models `String.prototype.toLowerCase()` on the ASCII strings the claims use. -/
def strToLower (s : String) : String :=
  ⟨s.data.map Char.toLower⟩

/-- A character in the regex class `[a-z]`. -/
def isLowerAlpha (c : Char) : Bool := 'a' ≤ c && c ≤ 'z'

/-- Decides the regex of `isValidLanguageCode` (2–3 lowercase letters and an
optional dash-plus-2-letters region suffix):
2–3 lowercase letters, optionally followed by a dash and 2 lowercase letters. -/
def matchesLangFormat (s : String) : Bool :=
  match s.data with
  | [a, b] => isLowerAlpha a && isLowerAlpha b
  | [a, b, c] => isLowerAlpha a && isLowerAlpha b && isLowerAlpha c
  | [a, b, d, x, y] =>
      isLowerAlpha a && isLowerAlpha b && (d == '-') && isLowerAlpha x && isLowerAlpha y
  | [a, b, c, d, x, y] =>
      isLowerAlpha a && isLowerAlpha b && isLowerAlpha c && (d == '-') &&
        isLowerAlpha x && isLowerAlpha y
  | _ => false

/-- Embeds `isValidLanguageCode`: trims and lower-cases the input, checks the
format regex, then membership in the allow-list (the `typeof` guard is
vacuous in the typed model; `!language` is the empty-string check). -/
def isValidLanguageCode (language : String) : Bool :=
  if language == "" then false
  else
    let cleanLanguage := strToLower (strTrim language)
    if !matchesLangFormat cleanLanguage then false
    else VALID_LANGUAGE_CODES.contains cleanLanguage

/-- Embeds interface `SearchOptions` (a `format` field is always `"json"` in
the built query and is produced by `buildSearchParams` directly). -/
structure SearchOptions where
  engines : Option (List String) := none
  categories : Option (List String) := none
  safesearch : Option ℚ := none
  language : Option String := none
deriving DecidableEq, Repr

/-- Digits of the finite decimal expansion of `n / d` with `n < d`
(fuel-bounded; the claims only use terminating decimals). -/
def decDigits : Nat → Nat → Nat → List Nat
  | 0, _, _ => []
  | _ + 1, 0, _ => []
  | fuel + 1, n, d => (n * 10 / d) :: decDigits fuel (n * 10 % d) d

/-- Models JavaScript `Number.prototype.toString()` on the finite decimals
the claims exercise (`0.5`, `1.7`, integers). -/
def jsNumToString (q : ℚ) : String :=
  let sign := if q < 0 then "-" else ""
  let n := q.num.natAbs
  let d := q.den
  let ip := n / d
  let fr := n % d
  if fr = 0 then sign ++ toString ip
  else sign ++ toString ip ++ "." ++ String.join ((decDigits 20 fr d).map toString)

/-- Embeds the `URLSearchParams` construction in `searchSingle`: the base
`q`/`format` pairs followed by each optional parameter exactly when its
guard in the source holds, in source order. -/
def buildSearchParams (query : String) (options : SearchOptions) :
    List (String × String) :=
  [("q", query), ("format", "json")] ++
  (match options.engines with
   | some es => if es.length == 0 then [] else [("engines", String.intercalate "," es)]
   | none => []) ++
  (match options.categories with
   | some cs => if cs.length == 0 then [] else [("categories", String.intercalate "," cs)]
   | none => []) ++
  (match options.safesearch with
   | some ss => [("safesearch", jsNumToString ss)]
   | none => []) ++
  (match options.language with
   | some lang =>
       if (!(lang == "")) && isValidLanguageCode lang then
         [("language", strToLower (strTrim lang))]
       else []
   | none => [])

/-! ## Response normalizer (src/tools/searxng.ts) -/

namespace Tools

/-- The tool layer's simplified `SearchResult` (title/link/snippet). -/
structure SearchResult where
  title : String
  link : String
  snippet : String
deriving DecidableEq, Repr

/-- Embeds interface `SearchResponse`: the per-query entry of the RPC reply.
`error?` is `Option String` (absent on success). -/
structure SearchResponse where
  query : String
  results : List SearchResult
  total_results : Nat
  success : Bool
  error : Option String := none
deriving DecidableEq, Repr

/-- The `summary` field of `MultiSearchResponse`. -/
structure ResponseSummary where
  total_queries : Nat
  successful_queries : Nat
  failed_queries : Nat
deriving DecidableEq, Repr

/-- Embeds interface `MultiSearchResponse`. -/
structure MultiSearchResponse where
  searches : List SearchResponse
  summary : ResponseSummary
deriving DecidableEq, Repr

/-- Evaluates JavaScript `x || d` on a string that may be null/absent: the default is
used when the value is absent or the empty string (both falsy). -/
def jsStringOr : Option String → String → String
  | some s, d => if s == "" then d else s
  | none, d => d

/-- The per-entry body of `SearXNGSearchTool.formatResponse`'s `map`:
`if (result.success && result.data)` selects the success shape, everything
else gets the failure shape with `result.error || 'Unknown error'`. -/
def formatOne (result : PerQueryOutcome) : SearchResponse :=
  match result.success, result.data with
  | true, some data =>
      { query := result.query
        results := data.results.map (fun item =>
          { title := item.title, link := item.url, snippet := item.content })
        total_results := data.number_of_results
        success := true
        error := none }
  | _, _ =>
      { query := result.query
        results := []
        total_results := 0
        success := false
        error := some (jsStringOr result.error "Unknown error") }

/-- Embeds `SearXNGSearchTool.formatResponse`. -/
def formatResponse (multiResult : MultiSearchResult) : MultiSearchResponse :=
  { searches := multiResult.results.map formatOne
    summary := { total_queries := multiResult.summary.total
                 successful_queries := multiResult.summary.successful
                 failed_queries := multiResult.summary.failed } }

end Tools

/-! ## RPC argument validation (src/server.ts, `handleSearchTool`) -/

/-- A dynamic JavaScript value as received in the tool-call `arguments`. -/
inductive JVal where
  | vstr (s : String)
  | vnum (q : ℚ)
  | vbool (b : Bool)
  | vnull
  | vundefined
  | varr (xs : List JVal)

/-- JavaScript truthiness for the values `JVal` models. -/
def jsTruthy : JVal → Bool
  | .vstr s => s != ""
  | .vnum q => q != 0
  | .vbool b => b
  | .vnull => false
  | .vundefined => false
  | .varr _ => true

/-- Decides `Array.isArray`. -/
def isArray : JVal → Bool
  | .varr _ => true
  | _ => false

/-- The element list of an array value (only consulted when `isArray`). -/
def asArray : JVal → List JVal
  | .varr xs => xs
  | _ => []

/-- Decides `typeof v === "number"`. -/
def isNumberVal : JVal → Bool
  | .vnum _ => true
  | _ => false

/-- The `args` object of the `search` tool call; missing properties read as
`undefined`. -/
structure RawArgs where
  queries : JVal := .vundefined
  engines : JVal := .vundefined
  categories : JVal := .vundefined
  safesearch : JVal := .vundefined
  language : JVal := .vundefined

/-- The loop body check in `handleSearchTool`:
`typeof query === "string" && query.trim().length !== 0`. -/
def isNonBlankStringArg : JVal → Bool
  | .vstr s => strTrim s != ""
  | _ => false

/-- Evaluates `args.engines && Array.isArray(args.engines) ? args.engines :
undefined` (and the same for `categories`). -/
def extractArrayArg (v : JVal) : Option (List JVal) :=
  if jsTruthy v && isArray v then some (asArray v) else none

/-- The optional-parameter extraction block of `handleSearchTool`
(absent-if-wrong-type normalization). -/
structure ValidatedArgs where
  queries : List JVal
  engines : Option (List JVal)
  categories : Option (List JVal)
  safesearch : Option ℚ
  language : Option String

/-- Extracts the arguments `handleSearchTool` passes to `executeSearch`. -/
def extractArgs (args : RawArgs) : ValidatedArgs :=
  { queries := asArray args.queries
    engines := extractArrayArg args.engines
    categories := extractArrayArg args.categories
    safesearch := match args.safesearch with | .vnum q => some q | _ => none
    language := match args.language with | .vstr s => some s | _ => none }

/-- Embeds the validation part of `SearXNGMCPServer.handleSearchTool`:
the three throw sites in source order, then the extracted arguments that
reach `executeSearch`. -/
def handleSearchTool (args : RawArgs) : Except String ValidatedArgs :=
  if !jsTruthy args.queries || !isArray args.queries ||
      (asArray args.queries).length == 0 then
    .error "queries parameter is required and must be a non-empty array"
  else if !(asArray args.queries).all isNonBlankStringArg then
    .error "All queries must be non-empty strings"
  else
    let v := extractArgs args
    match v.safesearch with
    | some ss =>
        if ss < 0 ∨ ss > 2 then .error "safesearch must be between 0 and 2"
        else .ok v
    | none => .ok v

/-- Both query checks of `handleSearchTool` pass: a non-empty array whose
entries are all non-blank strings. -/
def queriesArgOk (args : RawArgs) : Bool :=
  jsTruthy args.queries && isArray args.queries &&
    !((asArray args.queries).length == 0) &&
    (asArray args.queries).all isNonBlankStringArg

/-! ## HTTP session-multiplexing transport (HttpTransport.setupRoutes) -/

/-- Setting a key in the `transports` object: the key set gains `k`
(assignment to an existing key replaces the value, leaving the key set
unchanged). -/
def insertKey (m : List String) (k : String) : List String :=
  if m.contains k then m else m ++ [k]

/-- The observable response of an `/mcp` route handler. -/
inductive McpResponse where
  | handled (sessionId : String)
  | initialized (sessionId : String)
  | jsonRpcError (status : Nat) (code : Int) (message : String)
  | textError (status : Nat) (body : String)
deriving DecidableEq, Repr

/-- Truthiness of the `mcp-session-id` request header
(`string | undefined`; the empty string is falsy). -/
def headerTruthy : Option String → Bool
  | some s => s != ""
  | none => false

/-- The header's string value (only consulted when truthy). -/
def headerValue : Option String → String
  | some s => s
  | none => ""

/-- Embeds the `POST /mcp` handler: reuse a known session, create one for a
token-less initialize request (registering the generated id via
`onsessioninitialized`), otherwise reply 400 with JSON-RPC code -32000.
Returns the response and the updated session map. -/
def postMcp (transports : List String) (sessionId : Option String)
    (isInitialize : Bool) (newSessionId : String) : McpResponse × List String :=
  if headerTruthy sessionId && transports.contains (headerValue sessionId) then
    (.handled (headerValue sessionId), transports)
  else if !headerTruthy sessionId && isInitialize then
    (.initialized newSessionId, insertKey transports newSessionId)
  else
    (.jsonRpcError 400 (-32000)
       "Bad Request: No valid session ID provided or invalid initialization",
     transports)

/-- Embeds the `GET /mcp` handler (server-to-client stream delivery). -/
def getMcp (transports : List String) (sessionId : Option String) :
    McpResponse × List String :=
  if !headerTruthy sessionId || !transports.contains (headerValue sessionId) then
    (.textError 400 "Invalid or missing session ID", transports)
  else
    (.handled (headerValue sessionId), transports)

/-- Embeds the `DELETE /mcp` handler: unknown/missing token replies 400 and
leaves the map alone; a known token is handled and then removed. -/
def deleteMcp (transports : List String) (sessionId : Option String) :
    McpResponse × List String :=
  if !headerTruthy sessionId || !transports.contains (headerValue sessionId) then
    (.textError 400 "Invalid or missing session ID", transports)
  else
    (.handled (headerValue sessionId), transports.erase (headerValue sessionId))

/-- Embeds the `transport.onclose` callback:
`if (transport.sessionId) delete this.transports[transport.sessionId]`
(deleting an absent key is a no-op in JavaScript). -/
def transportOnClose (transports : List String) (sessionId : Option String) :
    List String :=
  if headerTruthy sessionId then transports.erase (headerValue sessionId)
  else transports

/-- Whether a response is a JSON-RPC error envelope with the given code. -/
def carriesJsonRpcCode (r : McpResponse) (c : Int) : Bool :=
  match r with
  | .jsonRpcError _ code _ => code == c
  | _ => false

/-- The request's token is unknown to the session map or missing/empty. -/
def unknownOrMissing (transports : List String) (sessionId : Option String) :
    Bool :=
  match sessionId with
  | none => true
  | some s => s == "" || !transports.contains s

/-! ## Reassembly lemmas -/

/-- A `find?` over a list returns the unique element satisfying the predicate. -/
theorem find?_eq_of_unique {α : Type} (l : List (Nat × α)) (i : Nat) (p : Nat × α)
    (hmem : p ∈ l) (hkey : p.1 = i)
    (huniq : ∀ q ∈ l, q.1 = i → q = p) :
    l.find? (fun q => q.1 == i) = some p := by
  induction l with
  | nil => cases hmem
  | cons a t ih =>
    by_cases ha : a.1 = i
    · have hfind : List.find? (fun q : Nat × α => q.1 == i) (a :: t) = some a :=
        List.find?_cons_of_pos t (by simp [ha])
      rw [hfind]
      exact congrArg some (huniq a (List.mem_cons_self a t) ha)
    · have hfind : List.find? (fun q : Nat × α => q.1 == i) (a :: t) =
          List.find? (fun q : Nat × α => q.1 == i) t :=
        List.find?_cons_of_neg t (by simp [ha])
      rw [hfind]
      have hpt : p ∈ t := by
        rcases List.mem_cons.mp hmem with h | h
        · exact absurd (h ▸ hkey) ha
        · exact h
      exact ih hpt (fun q hq hqi => huniq q (List.mem_cons_of_mem a hq) hqi)

/-- In any permutation of `xs.enum`, index `i < xs.length` is found with
exactly the element `xs.get i`. -/
theorem find?_perm_enum {α : Type} (xs : List α) (l : List (Nat × α))
    (hperm : l.Perm xs.enum) (i : Nat) (hi : i < xs.length) :
    l.find? (fun p => p.1 == i) = some (i, xs.get ⟨i, hi⟩) := by
  apply find?_eq_of_unique
  · exact hperm.mem_iff.mpr (List.mk_mem_enum_iff_getElem?.mpr (by
      simp [List.getElem?_eq_getElem hi, List.get_eq_getElem]))
  · rfl
  · rintro ⟨a, b⟩ hq hqi
    simp only at hqi
    subst hqi
    have hb : xs[a]? = some b := List.mk_mem_enum_iff_getElem?.mp (hperm.mem_iff.mp hq)
    have : b = xs[a] := by
      have := List.getElem?_eq_getElem hi
      rw [this] at hb
      exact (Option.some.inj hb).symm
    simp [List.get_eq_getElem, this]

/-- A `filterMap` is a `map` when the function is total on the list. -/
theorem filterMap_eq_map_of_some {α β : Type} (l : List α) (f : α → Option β)
    (g : α → β) (h : ∀ i ∈ l, f i = some (g i)) : l.filterMap f = l.map g := by
  induction l with
  | nil => rfl
  | cons a t ih =>
    rw [List.filterMap_cons, h a (List.mem_cons_self a t), List.map_cons,
      ih (fun i hi => h i (List.mem_cons_of_mem a hi))]

/-- Reading a list back by `getD` over its index range is the identity. -/
theorem map_getD_range {α : Type} (xs : List α) (d : α) :
    (List.range xs.length).map (fun i => xs.getD i d) = xs := by
  induction xs with
  | nil => rfl
  | cons a t ih =>
    rw [List.length_cons, List.range_succ_eq_map, List.map_cons, List.map_map]
    have hcomp : ((fun i => (a :: t).getD i d) ∘ Nat.succ) = fun i => t.getD i d := by
      funext i
      simp [List.getD_cons_succ]
    rw [List.getD_cons_zero, hcomp, ih]

/-- Reassembling any permutation of `xs.enum` by index recovers `xs`:
the aggregation is independent of the order in which outcomes arrived. -/
theorem reassemble_perm_enum (xs : List PerQueryOutcome)
    (l : List (Nat × PerQueryOutcome)) (hperm : l.Perm xs.enum) :
    reassemble xs.length l = xs := by
  unfold reassemble
  have dflt : PerQueryOutcome := ⟨"", false, none, none⟩
  rw [filterMap_eq_map_of_some (List.range xs.length)
    (fun i => (l.find? (fun p => p.1 == i)).map Prod.snd)
    (fun i => xs.getD i dflt) ?_]
  · exact map_getD_range xs dflt
  · intro i hi
    have hlt : i < xs.length := List.mem_range.mp hi
    show (l.find? (fun p => p.1 == i)).map Prod.snd = some (xs.getD i dflt)
    rw [find?_perm_enum xs l hperm i hlt]
    have hgd : xs.getD i dflt = xs.get ⟨i, hlt⟩ := by
      simp [List.getD_eq_getElem?_getD, List.getElem?_eq_getElem hlt,
        List.get_eq_getElem]
    rw [hgd]
    rfl

/-- The scheduled executor agrees with the index-order denotation of
`Promise.all`, for every completion schedule. -/
theorem searchScheduled_eq_search (fetch : String → Except Thrown SearchResult)
    (completion : Nat → Nat) (queries : List String) :
    searchScheduled fetch completion queries = search fetch queries := by
  by_cases h : queries.length = 0
  · simp [searchScheduled, search, h]
  · have hre : reassemble queries.length
        (List.insertionSort (fun a b => completion a.1 ≤ completion b.1)
          (queries.map (searchTask fetch)).enum) =
        queries.map (searchTask fetch) := by
      rw [show queries.length = (queries.map (searchTask fetch)).length from
        (List.length_map _ _).symm]
      exact reassemble_perm_enum _ _ (List.perm_insertionSort _ _)
    simp only [searchScheduled, search, if_neg h]
    rw [hre]

/-! ## Executor helper lemmas -/

/-- A task's outcome always carries its own query. -/
theorem searchTask_query (fetch : String → Except Thrown SearchResult) (q : String) :
    (searchTask fetch q).query = q := by
  unfold searchTask
  cases fetch q <;> rfl

/-- On a non-empty batch `search` resolves with the index-ordered outcomes
and issues one upstream call per query. -/
theorem search_ok (fetch : String → Except Thrown SearchResult)
    (queries : List String) (hne : queries ≠ []) :
    ∃ r : MultiSearchResult,
      search fetch queries = (.ok r, queries) ∧
      r.queries = queries ∧
      r.results = queries.map (searchTask fetch) ∧
      r.summary.total = queries.length ∧
      r.summary.successful = (r.results.filter (fun o => o.success)).length ∧
      r.summary.failed = (r.results.filter (fun o => !o.success)).length := by
  have h : ¬ queries.length = 0 := fun hh => hne (List.length_eq_zero.mp hh)
  refine ⟨{ queries := queries
            results := queries.map (searchTask fetch)
            summary := { total := queries.length
                         successful := ((queries.map (searchTask fetch)).filter
                           (fun o => o.success)).length
                         failed := ((queries.map (searchTask fetch)).filter
                           (fun o => !o.success)).length } },
         ?_, rfl, rfl, rfl, rfl, rfl⟩
  simp [search, h]

/-- A filter and its complement partition a list's length. -/
theorem length_filter_add_length_filter_not {α : Type} (l : List α) (p : α → Bool) :
    (l.filter p).length + (l.filter (fun x => !p x)).length = l.length := by
  induction l with
  | nil => rfl
  | cons a t ih =>
    cases h : p a <;> simp [List.filter_cons, h] <;> omega

/-- The language guard in `searchSingle` is equivalent to: the cleaned code
matches the format regex and belongs to the allow-list. -/
theorem languageGuard_eq (lang : String) :
    ((!(lang == "")) && isValidLanguageCode lang) =
      (matchesLangFormat (strToLower (strTrim lang)) &&
        VALID_LANGUAGE_CODES.contains (strToLower (strTrim lang))) := by
  by_cases h : lang = ""
  · subst h
    decide
  · have hb : (lang == "") = false := by simp [h]
    simp only [isValidLanguageCode, hb, Bool.not_false, Bool.true_and, if_false,
      Bool.false_eq_true]
    cases hm : matchesLangFormat (strToLower (strTrim lang)) <;> simp [hm]

/-! ## Claim theorems -/

/-- C1: for every non-empty query list, the aggregate returned by
`SearXNGApiClient.search` resolves with a `results` list of the same length
as the input, whose entry at every index `i` carries the query at input
index `i` — independently of the completion schedule of the concurrent
upstream calls — and whose `queries` field equals the input list. -/
theorem C1_results_match_queries (fetch : String → Except Thrown SearchResult)
    (completion : Nat → Nat) (queries : List String) (hne : queries ≠ []) :
    ∃ r : MultiSearchResult,
      (searchScheduled fetch completion queries).1 = .ok r ∧
      (search fetch queries).1 = .ok r ∧
      r.results.length = queries.length ∧
      (∀ i : Nat, (r.results[i]?).map PerQueryOutcome.query = queries[i]?) ∧
      r.queries = queries := by
  obtain ⟨r, hr, hq, hres, -, -, -⟩ := search_ok fetch queries hne
  refine ⟨r, ?_, ?_, ?_, ?_, hq⟩
  · rw [searchScheduled_eq_search, hr]
  · rw [hr]
  · rw [hres]
    exact List.length_map _ _
  · intro i
    rw [hres, List.getElem?_map]
    cases queries[i]? with
    | none => rfl
    | some q => simp [searchTask_query]

/-- C1 witness: two queries, a schedule on which the second call completes
first, all upstream calls failing. -/
theorem C1_results_match_queries_witness :
    (["a", "b"] : List String) ≠ [] ∧
    (∃ r : MultiSearchResult,
      (searchScheduled (fun _ => .error .nonError) (fun i => 10 - i) ["a", "b"]).1 = .ok r ∧
      (search (fun _ => .error .nonError) ["a", "b"]).1 = .ok r ∧
      r.results.length = (["a", "b"] : List String).length ∧
      (∀ i : Nat, (r.results[i]?).map PerQueryOutcome.query =
        (["a", "b"] : List String)[i]?) ∧
      r.queries = ["a", "b"]) :=
  ⟨by decide,
   C1_results_match_queries (fun _ => .error .nonError) (fun i => 10 - i) ["a", "b"]
     (by decide)⟩

/-- A concrete backend result item used by witnesses. -/
def sampleItem : SearchResultItem :=
  { url := "u", title := "t", content := "c", engine := "g", template := "d",
    parsed_url := [], engines := [], positions := [], score := 0,
    category := "general" }

/-- A concrete backend response used by witnesses. -/
def sampleData : SearchResult :=
  { query := "a", number_of_results := 1, results := [sampleItem] }

/-- A concrete oracle on which query "a" succeeds and every other query
fails with an `Error`. -/
def fetchAB : String → Except Thrown SearchResult :=
  fun q => if q = "a" then .ok sampleData else .error (.jsError "boom")

/-- A concrete oracle on which every query fails. -/
def fetchDown : String → Except Thrown SearchResult :=
  fun _ => .error (.jsError "down")

/-- C2: on a non-empty batch, each task that fails becomes a failed
outcome with the captured message and no data, each success becomes a
succeeded outcome with data and no error, exactly one of data/error is
populated, the batch still resolves, and the outcome at index `i` depends
only on the upstream behaviour at query `i` (another query\'s failure cannot
change it). -/
theorem C2_failure_isolation (fetch fetch' : String → Except Thrown SearchResult)
    (queries : List String) (hne : queries ≠ []) :
    ∃ r : MultiSearchResult,
      (search fetch queries).1 = .ok r ∧
      (∀ i : Nat, r.results[i]? = (queries[i]?).map (searchTask fetch)) ∧
      (∀ q d, fetch q = .ok d →
        searchTask fetch q =
          { query := q, success := true, data := some d, error := none }) ∧
      (∀ q e, fetch q = .error e →
        searchTask fetch q =
          { query := q, success := false, data := none,
            error := some (capturedMessage e) }) ∧
      (∀ o ∈ r.results,
        (o.success = true → o.data ≠ none ∧ o.error = none) ∧
        (o.success = false → o.data = none ∧ o.error ≠ none)) ∧
      (∀ q, fetch q = fetch' q → searchTask fetch q = searchTask fetch' q) := by
  obtain ⟨r, hr, -, hres, -, -, -⟩ := search_ok fetch queries hne
  refine ⟨r, ?_, ?_, ?_, ?_, ?_, ?_⟩
  · rw [hr]
  · intro i
    rw [hres]
    exact List.getElem?_map _ _ _
  · intro q d h
    simp [searchTask, h]
  · intro q e h
    simp [searchTask, h]
  · intro o ho
    rw [hres] at ho
    obtain ⟨q, hq, rfl⟩ := List.mem_map.mp ho
    unfold searchTask
    cases fetch q <;> simp
  · intro q h
    unfold searchTask
    rw [h]

/-- C2 witness: a batch of two queries in which "a" succeeds and "b" fails;
the theorem is applied against a second oracle agreeing nowhere. -/
theorem C2_failure_isolation_witness :
    (["a", "b"] : List String) ≠ [] ∧
    (∃ r : MultiSearchResult,
      (search fetchAB ["a", "b"]).1 = .ok r ∧
      (∀ i : Nat, r.results[i]? =
        ((["a", "b"] : List String)[i]?).map (searchTask fetchAB)) ∧
      (∀ q d, fetchAB q = .ok d →
        searchTask fetchAB q =
          { query := q, success := true, data := some d, error := none }) ∧
      (∀ q e, fetchAB q = .error e →
        searchTask fetchAB q =
          { query := q, success := false, data := none,
            error := some (capturedMessage e) }) ∧
      (∀ o ∈ r.results,
        (o.success = true → o.data ≠ none ∧ o.error = none) ∧
        (o.success = false → o.data = none ∧ o.error ≠ none)) ∧
      (∀ q, fetchAB q = fetchDown q →
        searchTask fetchAB q = searchTask fetchDown q)) :=
  ⟨by decide, C2_failure_isolation fetchAB fetchDown ["a", "b"] (by decide)⟩

/-- C3: the aggregate summary recomputes the outcome counts — `total` is the
number of input queries, `successful` counts `success = true`, `failed`
counts `success = false`, and they partition the total. -/
theorem C3_summary_counts (fetch : String → Except Thrown SearchResult)
    (queries : List String) (hne : queries ≠ []) :
    ∃ r : MultiSearchResult,
      (search fetch queries).1 = .ok r ∧
      r.summary.total = queries.length ∧
      r.summary.successful = (r.results.filter (fun o => o.success)).length ∧
      r.summary.failed = (r.results.filter (fun o => !o.success)).length ∧
      r.summary.successful + r.summary.failed = r.summary.total := by
  obtain ⟨r, hr, -, hres, ht, hs, hf⟩ := search_ok fetch queries hne
  refine ⟨r, by rw [hr], ht, hs, hf, ?_⟩
  rw [hs, hf, ht, hres]
  exact (length_filter_add_length_filter_not (queries.map (searchTask fetch))
    (fun o => o.success)).trans (List.length_map queries (searchTask fetch))

/-- C3 witness: one succeeding and one failing query. -/
theorem C3_summary_counts_witness :
    (["a", "b"] : List String) ≠ [] ∧
    (∃ r : MultiSearchResult,
      (search (fun q => if q = "a"
          then .ok { query := "a", number_of_results := 0, results := [] }
          else .error .nonError) ["a", "b"]).1 = .ok r ∧
      r.summary.total = (["a", "b"] : List String).length ∧
      r.summary.successful = (r.results.filter (fun o => o.success)).length ∧
      r.summary.failed = (r.results.filter (fun o => !o.success)).length ∧
      r.summary.successful + r.summary.failed = r.summary.total) :=
  ⟨by decide,
   C3_summary_counts (fun q => if q = "a"
      then .ok { query := "a", number_of_results := 0, results := [] }
      else .error .nonError) ["a", "b"] (by decide)⟩

/-- C4: calling `search` with an empty query list fails with the validation
error while issuing zero upstream calls, and the empty list is the only
input on which the whole batch is aborted — every non-empty batch
resolves. -/
theorem C4_empty_batch (fetch : String → Except Thrown SearchResult) :
    search fetch [] = (.error "At least one search query is required", []) ∧
    (∀ queries : List String, queries ≠ [] →
      ∃ r : MultiSearchResult, (search fetch queries).1 = .ok r) := by
  constructor
  · rfl
  · intro qs h
    obtain ⟨r, hr, -, -, -, -, -⟩ := search_ok fetch qs h
    exact ⟨r, by rw [hr]⟩

/-- C4 witness: the empty batch aborts with no upstream call; `["a"]`
resolves. -/
theorem C4_empty_batch_witness :
    search (fun _ => .error .nonError) [] =
      (.error "At least one search query is required", []) ∧
    ((["a"] : List String) ≠ [] ∧
      ∃ r : MultiSearchResult,
        (search (fun _ => .error .nonError) ["a"]).1 = .ok r) :=
  ⟨(C4_empty_batch (fun _ => .error .nonError)).1,
   by decide,
   (C4_empty_batch (fun _ => .error .nonError)).2 ["a"] (by decide)⟩

/-- C5: the normalizer is a pure total function; a failed outcome maps to
empty results, zero total, `success = false` and the captured message
(defaulting to "Unknown error" when the outcome carries no message); a
successful outcome maps each backend item `title→title`, `url→link`,
`content→snippet` — dropping every other item field — with `total_results`
taken from the backend count. -/
theorem C5_normalizer_shape (m : MultiSearchResult) :
    (Tools.formatResponse m).searches = m.results.map Tools.formatOne ∧
    (∀ o : PerQueryOutcome, o.success = false →
      Tools.formatOne o =
        { query := o.query, results := [], total_results := 0, success := false,
          error := some (Tools.jsStringOr o.error "Unknown error") }) ∧
    (∀ (o : PerQueryOutcome) (d : SearchResult), o.success = true → o.data = some d →
      Tools.formatOne o =
        { query := o.query
          results := d.results.map (fun item =>
            { title := item.title, link := item.url, snippet := item.content })
          total_results := d.number_of_results
          success := true
          error := none }) := by
  refine ⟨rfl, ?_, ?_⟩
  · intro o h
    cases hd : o.data <;> simp [Tools.formatOne, h, hd]
  · intro o d h hd
    simp [Tools.formatOne, h, hd]

/-- C5 witness: a failed outcome with an empty captured message and a
successful outcome over `sampleData`. -/
theorem C5_normalizer_shape_witness :
    (Tools.formatResponse { queries := [], results := [], summary := ⟨0, 0, 0⟩ }).searches =
      ([] : List PerQueryOutcome).map Tools.formatOne ∧
    (({ query := "q1", success := false, data := none, error := some "" }
        : PerQueryOutcome).success = false ∧
      Tools.formatOne { query := "q1", success := false, data := none, error := some "" } =
        { query := "q1", results := [], total_results := 0, success := false,
          error := some "Unknown error" }) ∧
    (({ query := "a", success := true, data := some sampleData, error := none }
        : PerQueryOutcome).success = true ∧
      Tools.formatOne
          { query := "a", success := true, data := some sampleData, error := none } =
        { query := "a", results := [{ title := "t", link := "u", snippet := "c" }],
          total_results := 1, success := true, error := none }) := by
  refine ⟨(C5_normalizer_shape { queries := [], results := [], summary := ⟨0, 0, 0⟩ }).1,
    ⟨rfl, ?_⟩, ⟨rfl, ?_⟩⟩
  · rw [(C5_normalizer_shape { queries := [], results := [], summary := ⟨0, 0, 0⟩ }).2.1
      { query := "q1", success := false, data := none, error := some "" } rfl]
    decide
  · rw [(C5_normalizer_shape { queries := [], results := [], summary := ⟨0, 0, 0⟩ }).2.2
      { query := "a", success := true, data := some sampleData, error := none }
      sampleData rfl rfl]
    decide

/-- C6: for every language string, the outgoing query string gains a
`language` parameter — valued with the trimmed, lower-cased code — exactly
when the cleaned code matches the 2–3-letter (optionally dash + 2-letter)
format and is in the allow-list; any other value silently omits the
parameter and the builder never fails. -/
theorem C6_language_gate (query lang : String) :
    buildSearchParams query { language := some lang } =
      [("q", query), ("format", "json")] ++
        (if matchesLangFormat (strToLower (strTrim lang)) &&
            VALID_LANGUAGE_CODES.contains (strToLower (strTrim lang)) then
          [("language", strToLower (strTrim lang))] else []) := by
  simp only [buildSearchParams]
  rw [languageGuard_eq]
  simp

/-- C7: argument validation rejects any queries entry that is not a string
or is blank after trimming, rejects any numeric safesearch outside [0,2] —
in particular 3 and -1 — and accepts safesearch 0, 1 and 2. -/
theorem C7_argument_validation :
    (∀ (args : RawArgs) (qs : List JVal) (q : JVal),
      args.queries = .varr qs → q ∈ qs → isNonBlankStringArg q = false →
      ∃ e, handleSearchTool args = .error e) ∧
    (∀ (args : RawArgs) (ss : ℚ),
      args.safesearch = .vnum ss → (ss < 0 ∨ ss > 2) →
      ∃ e, handleSearchTool args = .error e) ∧
    handleSearchTool { queries := .varr [.vstr "a"], safesearch := .vnum 3 } =
      .error "safesearch must be between 0 and 2" ∧
    handleSearchTool { queries := .varr [.vstr "a"], safesearch := .vnum (-1) } =
      .error "safesearch must be between 0 and 2" ∧
    (∃ v, handleSearchTool { queries := .varr [.vstr "a"], safesearch := .vnum 0 } = .ok v) ∧
    (∃ v, handleSearchTool { queries := .varr [.vstr "a"], safesearch := .vnum 1 } = .ok v) ∧
    (∃ v, handleSearchTool { queries := .varr [.vstr "a"], safesearch := .vnum 2 } = .ok v) := by
  refine ⟨?_, ?_, rfl, rfl, ⟨_, rfl⟩, ⟨_, rfl⟩, ⟨_, rfl⟩⟩
  · intro args qs q hq hmem hbad
    unfold handleSearchTool
    by_cases h1 : (!jsTruthy args.queries || !isArray args.queries ||
        (asArray args.queries).length == 0) = true
    · rw [if_pos h1]
      exact ⟨_, rfl⟩
    · rw [if_neg h1]
      have hall : (asArray args.queries).all isNonBlankStringArg = false := by
        rw [hq]
        show qs.all isNonBlankStringArg = false
        rcases hh : qs.all isNonBlankStringArg with _ | _
        · rfl
        · exact absurd (List.all_eq_true.mp hh q hmem) (by simp [hbad])
      rw [if_pos (by rw [hall]; rfl)]
      exact ⟨_, rfl⟩
  · intro args ss hss hrange
    unfold handleSearchTool
    by_cases h1 : (!jsTruthy args.queries || !isArray args.queries ||
        (asArray args.queries).length == 0) = true
    · rw [if_pos h1]
      exact ⟨_, rfl⟩
    · rw [if_neg h1]
      by_cases h2 : (!(asArray args.queries).all isNonBlankStringArg) = true
      · rw [if_pos h2]
        exact ⟨_, rfl⟩
      · rw [if_neg h2]
        have hv : (extractArgs args).safesearch = some ss := by
          simp [extractArgs, hss]
        simp only [hv, if_pos hrange]
        exact ⟨_, rfl⟩

/-- C7 witness: a blank queries entry is rejected; safesearch 3 is
rejected. -/
theorem C7_argument_validation_witness :
    (({ queries := .varr [.vstr " "] } : RawArgs).queries = .varr [.vstr " "] ∧
      isNonBlankStringArg (.vstr " ") = false ∧
      ∃ e, handleSearchTool { queries := .varr [.vstr " "] } = .error e) ∧
    (({ queries := .varr [.vstr "a"], safesearch := .vnum 3 } : RawArgs).safesearch =
        .vnum 3 ∧
      ((3 : ℚ) < 0 ∨ (3 : ℚ) > 2) ∧
      ∃ e, handleSearchTool { queries := .varr [.vstr "a"], safesearch := .vnum 3 } =
        .error e) :=
  ⟨⟨rfl, by decide,
    C7_argument_validation.1 { queries := .varr [.vstr " "] } [.vstr " "] (.vstr " ")
      rfl (List.mem_singleton.mpr rfl) (by decide)⟩,
   ⟨rfl, by decide,
    C7_argument_validation.2.1 { queries := .varr [.vstr "a"], safesearch := .vnum 3 } 3
      rfl (by decide)⟩⟩

/-- C8 counterexample: a GET to /mcp with an unknown token is rejected with
HTTP 400 as a plain-text body, not with a JSON-RPC error carrying code
-32000, so the fixed-code part of the claim fails on the GET (and DELETE)
routes; the session map is still unchanged. -/
theorem C8_counterexample_get_plain_text :
    unknownOrMissing [] (some "deadbeef") = true ∧
    (getMcp [] (some "deadbeef")).1 = .textError 400 "Invalid or missing session ID" ∧
    carriesJsonRpcCode (getMcp [] (some "deadbeef")).1 (-32000) = false ∧
    (getMcp [] (some "deadbeef")).2 = [] := by
  decide

/-- C8 (amended): a request with an unknown or missing token whose body is
not an initialize message is rejected with HTTP 400 and never creates a
session — on the POST route as a JSON-RPC error with the fixed code -32000,
on the GET and DELETE routes as a plain-text 400 body; in every case the
session map is returned unchanged. -/
theorem C8_bad_token_rejected (m : List String) (sid : Option String)
    (isInit : Bool) (newId : String) (hbad : unknownOrMissing m sid = true) :
    (isInit = false →
      postMcp m sid isInit newId =
        (.jsonRpcError 400 (-32000)
          "Bad Request: No valid session ID provided or invalid initialization", m)) ∧
    getMcp m sid = (.textError 400 "Invalid or missing session ID", m) ∧
    deleteMcp m sid = (.textError 400 "Invalid or missing session ID", m) := by
  cases sid with
  | none =>
    refine ⟨?_, rfl, rfl⟩
    intro h
    subst h
    rfl
  | some s =>
    by_cases hs : s = ""
    · subst hs
      refine ⟨?_, rfl, rfl⟩
      intro h
      subst h
      rfl
    · have hc : s ∉ m := by
        have hb : (s == "" || !m.contains s) = true := hbad
        rcases Bool.or_eq_true_iff.mp hb with h | h
        · exact absurd (by simpa using h) hs
        · simpa using h
      constructor
      · intro h
        subst h
        simp [postMcp, headerTruthy, headerValue, hs, hc]
      · constructor
        · simp [getMcp, headerTruthy, headerValue, hs, hc]
        · simp [deleteMcp, headerTruthy, headerValue, hs, hc]

/-- C8 witness: a non-empty map, an unknown token, non-initialize body. -/
theorem C8_bad_token_rejected_witness :
    unknownOrMissing ["tok1"] (some "other") = true ∧
    ((false = false →
      postMcp ["tok1"] (some "other") false "fresh" =
        (.jsonRpcError 400 (-32000)
          "Bad Request: No valid session ID provided or invalid initialization",
         ["tok1"])) ∧
    getMcp ["tok1"] (some "other") =
      (.textError 400 "Invalid or missing session ID", ["tok1"]) ∧
    deleteMcp ["tok1"] (some "other") =
      (.textError 400 "Invalid or missing session ID", ["tok1"])) :=
  ⟨by decide, C8_bad_token_rejected ["tok1"] (some "other") false "fresh" (by decide)⟩

/-- C9: session close is idempotent — deleting a live token removes it;
deleting an already-closed token returns the 400 response with the map
unchanged (the handler returns normally rather than raising) and the map
still has no entry; the connection close callback on an absent token is a
no-op, and running it twice equals running it once. -/
theorem C9_close_idempotent :
    (∀ (m : List String) (s : String), m.Nodup → s ≠ "" → m.contains s = true →
      deleteMcp m (some s) = (.handled s, m.erase s) ∧
        (m.erase s).contains s = false) ∧
    (∀ (m : List String) (s : String), m.contains s = false →
      deleteMcp m (some s) = (.textError 400 "Invalid or missing session ID", m) ∧
        (deleteMcp m (some s)).2.contains s = false) ∧
    (∀ (m : List String) (s : String), m.contains s = false →
      transportOnClose m (some s) = m) ∧
    (∀ (m : List String) (s : String), m.Nodup →
      transportOnClose (transportOnClose m (some s)) (some s) =
        transportOnClose m (some s)) := by
  refine ⟨?_, ?_, ?_, ?_⟩
  · intro m s hnd hs hc
    have hmem : s ∈ m := by simpa using hc
    constructor
    · simp [deleteMcp, headerTruthy, headerValue, hs, hmem]
    · simpa using hnd.not_mem_erase
  · intro m s hc
    have hres : deleteMcp m (some s) =
        (.textError 400 "Invalid or missing session ID", m) := by
      by_cases hs : s = ""
      · subst hs
        rfl
      · have hmem : s ∉ m := by simpa using hc
        simp [deleteMcp, headerTruthy, headerValue, hs, hmem]
    exact ⟨hres, by rw [hres]; exact hc⟩
  · intro m s hc
    by_cases hs : s = ""
    · subst hs
      rfl
    · have hmem : s ∉ m := by simpa using hc
      simp [transportOnClose, headerTruthy, headerValue, hs,
        List.erase_of_not_mem hmem]
  · intro m s hnd
    by_cases hs : s = ""
    · subst hs
      rfl
    · simp [transportOnClose, headerTruthy, headerValue, hs,
        List.erase_of_not_mem hnd.not_mem_erase]

/-- C9 witness: delete a live token then delete it again; run the close
callback on the emptied map. -/
theorem C9_close_idempotent_witness :
    ((["tok"] : List String).Nodup ∧ "tok" ≠ "" ∧
      (["tok"] : List String).contains "tok" = true ∧
      deleteMcp ["tok"] (some "tok") = (.handled "tok", (["tok"] : List String).erase "tok") ∧
      ((["tok"] : List String).erase "tok").contains "tok" = false) ∧
    (([] : List String).contains "tok" = false ∧
      deleteMcp [] (some "tok") = (.textError 400 "Invalid or missing session ID", []) ∧
      (deleteMcp [] (some "tok")).2.contains "tok" = false) ∧
    (transportOnClose [] (some "tok") = [] ∧
      transportOnClose (transportOnClose ["tok"] (some "tok")) (some "tok") =
        transportOnClose ["tok"] (some "tok")) :=
  ⟨⟨by decide, by decide, by decide,
    C9_close_idempotent.1 ["tok"] "tok" (by decide) (by decide) (by decide)⟩,
   ⟨by decide,
    C9_close_idempotent.2.1 [] "tok" (by decide)⟩,
   ⟨C9_close_idempotent.2.2.1 [] "tok" (by decide),
    C9_close_idempotent.2.2.2 ["tok"] "tok" (by decide)⟩⟩

/-- C10: the safesearch bound check only tests 0 ≤ n ≤ 2 over numbers, so
any non-integer number in the closed interval is accepted and forwarded
verbatim (via the JavaScript number-to-string conversion) into the
outgoing query string, and a non-number safesearch value is silently
treated as absent rather than rejected. -/
theorem C10_safesearch_bounds :
    (∀ (args : RawArgs) (ss : ℚ),
      args.safesearch = .vnum ss → 0 ≤ ss → ss ≤ 2 → queriesArgOk args = true →
      handleSearchTool args = .ok (extractArgs args) ∧
        (extractArgs args).safesearch = some ss) ∧
    (∀ args : RawArgs, isNumberVal args.safesearch = false → queriesArgOk args = true →
      handleSearchTool args = .ok (extractArgs args) ∧
        (extractArgs args).safesearch = none) ∧
    (∀ (query : String) (ss : ℚ),
      buildSearchParams query { safesearch := some ss } =
        [("q", query), ("format", "json"), ("safesearch", jsNumToString ss)]) ∧
    jsNumToString (mkRat 1 2) = "0.5" ∧
    jsNumToString (mkRat 17 10) = "1.7" := by
  have hpass : ∀ args : RawArgs, queriesArgOk args = true →
      (!jsTruthy args.queries || !isArray args.queries ||
        (asArray args.queries).length == 0) = false ∧
      (!(asArray args.queries).all isNonBlankStringArg) = false := by
    intro args hok
    have h1 : jsTruthy args.queries = true := by
      rcases hh : jsTruthy args.queries with _ | _
      · rw [queriesArgOk, hh] at hok
        simp at hok
      · rfl
    have h2 : isArray args.queries = true := by
      rcases hh : isArray args.queries with _ | _
      · rw [queriesArgOk, hh] at hok
        simp at hok
      · rfl
    have h3 : ((asArray args.queries).length == 0) = false := by
      rcases hh : ((asArray args.queries).length == 0) with _ | _
      · rfl
      · rw [queriesArgOk, hh] at hok
        simp at hok
    have h4 : (asArray args.queries).all isNonBlankStringArg = true := by
      rcases hh : (asArray args.queries).all isNonBlankStringArg with _ | _
      · rw [queriesArgOk, hh] at hok
        simp at hok
      · rfl
    simp [h1, h2, h3, h4]
  refine ⟨?_, ?_, ?_, by decide, by decide⟩
  · intro args ss hss h0 h2 hok
    obtain ⟨hq1, hq2⟩ := hpass args hok
    have hv : (extractArgs args).safesearch = some ss := by
      simp [extractArgs, hss]
    have hrange : ¬ (ss < 0 ∨ ss > 2) := by
      push_neg
      exact ⟨h0, h2⟩
    refine ⟨?_, hv⟩
    unfold handleSearchTool
    rw [if_neg (by rw [hq1]; simp), if_neg (by rw [hq2]; simp)]
    simp only [hv, if_neg hrange]
  · intro args hnum hok
    obtain ⟨hq1, hq2⟩ := hpass args hok
    have hv : (extractArgs args).safesearch = none := by
      cases hsv : args.safesearch with
      | vnum q =>
        rw [hsv] at hnum
        simp [isNumberVal] at hnum
      | vstr s => simp [extractArgs, hsv]
      | vbool b => simp [extractArgs, hsv]
      | vnull => simp [extractArgs, hsv]
      | vundefined => simp [extractArgs, hsv]
      | varr xs => simp [extractArgs, hsv]
    refine ⟨?_, hv⟩
    unfold handleSearchTool
    rw [if_neg (by rw [hq1]; simp), if_neg (by rw [hq2]; simp)]
    simp only [hv]
  · intro query ss
    rfl

/-- C10 witness: safesearch 0.5 is accepted and forwarded as "0.5"; a
string-valued safesearch is treated as absent. -/
theorem C10_safesearch_bounds_witness :
    (({ queries := .varr [.vstr "a"], safesearch := .vnum (mkRat 1 2) }
        : RawArgs).safesearch = .vnum (mkRat 1 2) ∧
      (0 : ℚ) ≤ mkRat 1 2 ∧ mkRat 1 2 ≤ 2 ∧
      queriesArgOk { queries := .varr [.vstr "a"], safesearch := .vnum (mkRat 1 2) } = true ∧
      handleSearchTool { queries := .varr [.vstr "a"], safesearch := .vnum (mkRat 1 2) } =
        .ok (extractArgs { queries := .varr [.vstr "a"], safesearch := .vnum (mkRat 1 2) }) ∧
      (extractArgs { queries := .varr [.vstr "a"], safesearch := .vnum (mkRat 1 2) }).safesearch =
        some (mkRat 1 2)) ∧
    (isNumberVal ({ queries := .varr [.vstr "a"], safesearch := .vstr "2" }
        : RawArgs).safesearch = false ∧
      queriesArgOk { queries := .varr [.vstr "a"], safesearch := .vstr "2" } = true ∧
      handleSearchTool { queries := .varr [.vstr "a"], safesearch := .vstr "2" } =
        .ok (extractArgs { queries := .varr [.vstr "a"], safesearch := .vstr "2" }) ∧
      (extractArgs { queries := .varr [.vstr "a"], safesearch := .vstr "2" }).safesearch =
        none) ∧
    buildSearchParams "x" { safesearch := some (mkRat 1 2) } =
      [("q", "x"), ("format", "json"), ("safesearch", "0.5")] :=
  ⟨⟨rfl, by decide, by decide, by decide,
    C10_safesearch_bounds.1 { queries := .varr [.vstr "a"], safesearch := .vnum (mkRat 1 2) }
      (mkRat 1 2) rfl (by decide) (by decide) (by decide)⟩,
   ⟨rfl, by decide,
    C10_safesearch_bounds.2.1 { queries := .varr [.vstr "a"], safesearch := .vstr "2" }
      rfl (by decide)⟩,
   by decide⟩

end SearxngMulMcp
